import Mathlib

/-!
# Verification of `src/solve_mcf.cc` (ClusteringTools)

The program is a 39-line `main` that
1. checks `argc` and prints a usage message (lines 12-14),
2. reads a DIMACS "min" instance into a `SmartDigraph` with per-arc
   `lower`/`capacity` maps of type `int`, a per-arc `cost` map of type
   `float` and a per-node `supply` map via `readDimacsMin` (lines 16-21),
3. runs the `CapacityScaling` solver with `upperMap`, `costMap` and
   `supplyMap` — but with no `lowerMap` — and discards the `ProblemType`
   returned by `run()` (lines 25-29),
4. prints `algo.totalCost()` to stderr and writes one line
   `g.id(source) g.id(target) flow` per arc with nonzero flow to the output
   file (lines 30-38).

The DIMACS reader and the solver are LEMON library code, not part of this
repository; they are modelled from the specification (sections 4.2 and 4.3).
The glue in `main` is embedded line by line: in particular the missing
`lowerMap` call, the discarded result of `run()`, the unconditional creation
of the output file, the always-zero exit status, and the `float` to `int`
conversion performed when the `float` cost map is copied into
`CapacityScaling<SmartDigraph>`, whose cost type defaults to `int`.
-/

namespace SolveMcf

/-- An exact fraction `num / den` (with `den > 0` in well-formed records)
standing for a real-valued cost literal of the input file.  The program
stores these values in a `float` arc map (line 19); every cost value
appearing in this development is exactly representable as a `float`, so the
fraction model is exact. -/
structure CostLit where
  num : Int
  den : Int
deriving DecidableEq, Repr

/-- The real value of a cost literal. -/
def CostLit.toRat (c : CostLit) : Rat := (c.num : Rat) / (c.den : Rat)

/-- An integer cost literal. -/
def CostLit.ofInt (n : Int) : CostLit := ⟨n, 1⟩

/-- Conversion of a real (`float`) value to `int` as performed by the
assignment in `costMap`: truncation toward zero.  For an exact fraction
`num / den` this is T-division. -/
def CostLit.toIntTrunc (c : CostLit) : Int := Int.tdiv c.num c.den

/-- One arc record of a DIMACS "min" input file: endpoint node ids as they
stand in the file (1-based), integer `lower` and `upper` capacity bounds and
a real-valued `cost` — exactly the data read into the maps declared on lines
18-19 of `src/solve_mcf.cc`. -/
structure ArcRec where
  src : Nat
  tgt : Nat
  lower : Int
  upper : Int
  cost : CostLit
deriving DecidableEq, Repr

/-- A well-formed DIMACS "min" instance at the record level: declared node
count `n`, the arc records in file order, and the per-node supplies (entry
`v` of `supply` is the supply of file node `v + 1`, that is, of store node
`v`; nodes without a node record have supply 0, covered by `List.getD`). -/
structure Instance where
  n : Nat
  arcs : List ArcRec
  supply : List Int
deriving DecidableEq, Repr

/-- Modelled from the spec: the Instance Reader (`readDimacsMin` of the
LEMON header `lemon/dimacs.h`, called on line 21, is library code not under
`src/`).  Section 4.2: "Node ids in the external format are 1-based; the
Reader remaps to the Graph Store 0-based ids" — each endpoint id is shifted
down by one; the bound, cost and supply values are stored unchanged. -/
def readArc (a : ArcRec) : ArcRec := { a with src := a.src - 1, tgt := a.tgt - 1 }

/-- Modelled from the spec: the record-level effect of `readDimacsMin`
(line 21).  Node count and supplies are stored as given; arc endpoint ids
are remapped from the 1-based file ids to the 0-based store ids. -/
def readDimacsMin (inst : Instance) : Instance :=
  { inst with arcs := inst.arcs.map readArc }

/-- The source/target id pairs of the arcs, in insertion order (the
`g.source`/`g.target` lookups of the Graph Store). -/
def arcEnds (arcs : List ArcRec) : List (Nat × Nat) :=
  arcs.map (fun a => (a.src, a.tgt))

/-- Net outflow of node `v` under flow `f`: the sum over the arcs of the
flow on outgoing arcs minus the flow on incoming arcs. -/
def netFlow (ends : List (Nat × Nat)) (f : List Int) (v : Nat) : Int :=
  ((ends.zip f).map
    (fun p => (if p.1.1 = v then p.2 else 0) - (if p.1.2 = v then p.2 else 0))).sum

/-- Exact flow conservation at every node:
`Σ flow(outgoing) − Σ flow(incoming) = supply(v)` for every node `v < n`. -/
def conservesB (n : Nat) (ends : List (Nat × Nat)) (supply : List Int)
    (f : List Int) : Bool :=
  (List.range n).all (fun v => netFlow ends f v == supply.getD v 0)

/-- Total cost `Σ cost(a) · flow(a)` over integer per-arc costs (the cost
type of `CapacityScaling<SmartDigraph>` and hence of `algo.totalCost()`). -/
def totalCostInt (costs f : List Int) : Int :=
  ((costs.zip f).map (fun p => p.1 * p.2)).sum

/-- All integer flow vectors with `lower(a) ≤ f(a) ≤ upper(a)` on every arc,
the per-arc bound pairs given in insertion order. -/
def flowCandidates : List (Int × Int) → List (List Int)
  | [] => [[]]
  | (l, u) :: rest =>
    if l ≤ u then
      ((List.range ((u - l).toNat + 1)).map (fun k => l + (k : Int))).flatMap
        (fun v => (flowCandidates rest).map (fun f => v :: f))
    else []

/-- The feasible flows of an instance: integer flow vectors within the
per-arc bounds that satisfy exact conservation at every node. -/
def feasibleFlows (n : Nat) (ends : List (Nat × Nat))
    (lower upper supply : List Int) : List (List Int) :=
  (flowCandidates (lower.zip upper)).filter (conservesB n ends supply)

/-- First minimum-cost element of a list of flows (the tie-break of the
spec: "when multiple shortest paths tie ... the first discovered ... is
used" — a later flow replaces the current best only when strictly
cheaper). -/
def bestFlow (costs : List Int) : List (List Int) → Option (List Int)
  | [] => none
  | f :: rest =>
    match bestFlow costs rest with
    | none => some f
    | some g =>
      if totalCostInt costs g < totalCostInt costs f then some g else some f

/-- Modelled from the spec: the MCF Engine (`CapacityScaling`, instantiated
on lines 25-29, is LEMON library code not under `src/`).  Section 4.3
contract: "given Graph Store + lower/upper/cost/supply maps, produce a Flow
minimizing `Σ cost(a)·flow(a)` subject to conservation and bounds, or fail
with InfeasibleError"; step 4: "never return a non-conserving flow".
Modelled extensionally as the first minimum-cost member of the finite list
of feasible integer flows, `none` when no feasible flow exists. -/
def capacityScalingRun (n : Nat) (ends : List (Nat × Nat))
    (lower upper costs supply : List Int) : Option (List Int) :=
  bestFlow costs (feasibleFlows n ends lower upper supply)

/-- The arc endpoint pairs the glue hands to the solver and the writer:
the Graph Store ids produced by the reader. -/
def glueEnds (inst : Instance) : List (Nat × Nat) :=
  arcEnds (readDimacsMin inst).arcs

/-- Line 26 `upperMap(capacity)`: the upper bounds exactly as read. -/
def glueUpper (inst : Instance) : List Int :=
  (readDimacsMin inst).arcs.map (fun a => a.upper)

/-- Line 26 `costMap(cost)`: the `float` cost map is copied into the solver
cost map of type `int` (`CapacityScaling<SmartDigraph>` defaults its cost
type to `int`), so each cost is truncated toward zero. -/
def glueCosts (inst : Instance) : List Int :=
  (readDimacsMin inst).arcs.map (fun a => a.cost.toIntTrunc)

/-- Line 26 never calls `lowerMap`, although the `lower` map was filled on
line 21; the documented LEMON default lower bound is zero on every arc. -/
def glueLower (inst : Instance) : List Int :=
  List.replicate (readDimacsMin inst).arcs.length 0

/-- The supplies as read (line 26 `supplyMap(supply)`). -/
def glueSupply (inst : Instance) : List Int := inst.supply

/-- Lines 25-29: the solver invocation exactly as `main` performs it —
upper bounds, truncated costs and supplies are passed; the lower map is not,
so every lower bound defaults to zero. -/
def glueSolve (inst : Instance) : Option (List Int) :=
  capacityScalingRun inst.n (glueEnds inst) (glueLower inst) (glueUpper inst)
    (glueCosts inst) (glueSupply inst)

/-- The all-zero flow vector, one entry per arc. -/
def zeroFlow (inst : Instance) : List Int :=
  List.replicate (readDimacsMin inst).arcs.length 0

/-- Lines 34-38, the Flow Writer: one line `<id(source)> <id(target)>
<flow>` per arc with nonzero flow, iterating the arcs in insertion order;
the emitted ids are the Graph Store ids (`g.id(...)`), that is, 0-based. -/
def writeFlow (ends : List (Nat × Nat)) (f : List Int) : List (Nat × Nat × Int) :=
  (ends.zip f).filterMap
    (fun p => if p.2 ≠ 0 then some (p.1.1, p.1.2, p.2) else none)

/-- Everything observable about one run of the program. -/
structure ProgRun where
  /-- Lines 12-14: the usage message was printed to stderr. -/
  usagePrinted : Bool
  /-- Lines 16-21: the input file was opened and read. -/
  readsInput : Bool
  /-- Line 30: the value `algo.totalCost()` printed to stderr. -/
  reportedCost : Int
  /-- Line 31: `std::ofstream fout(argv[2])` executed, creating (or
  truncating) the output file. -/
  outputFileCreated : Bool
  /-- Lines 34-38: the lines written to the output file. -/
  outputLines : List (Nat × Nat × Int)
  /-- The process exit status. -/
  exitCode : Nat
deriving DecidableEq, Repr

/-- The whole of `main` (lines 10-39) on an instance the reader accepts,
parametrized by the number of `argv` entries, program name included.
Lines 12-14 only print a message when `argc < 3` — there is no `return`
statement in the `if` body, so execution falls through to the read in every
case.  Line 29 discards the `ProblemType` returned by `run()`, so lines
30-38 execute whether or not the solve succeeded; after an unsuccessful run
the solver flow map holds unspecified intermediate state, modelled here as
all zeros (the theorems below depend on this modelling choice only at
instances without arcs, where the writer emits nothing whatever the flow map
holds).  `main` has no return statement and never calls `exit`, so the
process exit status is always 0. -/
def runMain (argCount : Nat) (inst : Instance) : ProgRun :=
  let sol := glueSolve inst
  let f := sol.getD (zeroFlow inst)
  { usagePrinted := decide (argCount < 3)
  , readsInput := true
  , reportedCost := totalCostInt (glueCosts inst) f
  , outputFileCreated := true
  , outputLines := writeFlow (glueEnds inst) f
  , exitCode := 0 }

/-- Exact real-valued total cost `Σ cost(a) · flow(a)` of a flow, with the
costs exactly as given in the input file. -/
def ratTotalCost (arcs : List ArcRec) (f : List Int) : Rat :=
  ((arcs.zip f).map (fun p => p.1.cost.toRat * (p.2 : Rat))).sum

/-- Optimality with respect to the data `main` actually hands the solver:
`f` is feasible (zero lower bounds) and no feasible flow is cheaper under
the truncated integer costs. -/
def IsOptimalFor (inst : Instance) (f : List Int) : Prop :=
  f ∈ feasibleFlows inst.n (glueEnds inst) (glueLower inst) (glueUpper inst)
        (glueSupply inst) ∧
  ∀ g ∈ feasibleFlows inst.n (glueEnds inst) (glueLower inst) (glueUpper inst)
        (glueSupply inst),
    totalCostInt (glueCosts inst) f ≤ totalCostInt (glueCosts inst) g

instance (inst : Instance) (f : List Int) : Decidable (IsOptimalFor inst f) := by
  unfold IsOptimalFor; infer_instance

/-- Every arc-record field except the lower bound. -/
def stripLower (a : ArcRec) : Nat × Nat × Int × CostLit :=
  (a.src, a.tgt, a.upper, a.cost)

/-- Scenario 1 of the spec: two nodes with supplies +5 and −5 and one arc
(file ids 1 → 2) with bounds [0, 10] and cost 2. -/
def scenario1 : Instance :=
  { n := 2
  , arcs := [⟨1, 2, 0, 10, .ofInt 2⟩]
  , supply := [5, -5] }

/-- Scenario 3 of the spec: triangle on three nodes (file ids 1, 2, 3,
store ids 0, 1, 2) with a direct arc 1 → 3 of cost 5 and a two-hop path
1 → 2 → 3 of cost 1 per arc, all bounds [0, 10], supplies +4, 0, −4. -/
def triangle : Instance :=
  { n := 3
  , arcs :=
      [⟨1, 3, 0, 10, .ofInt 5⟩, ⟨1, 2, 0, 10, .ofInt 1⟩, ⟨2, 3, 0, 10, .ofInt 1⟩]
  , supply := [4, 0, -4] }

/-- Two parallel arcs from file node 1 to file node 2: the first with lower
bound 2, upper bound 5 and cost 1; the second with bounds [0, 5] and cost 0;
supplies +2 and −2.  The unique flow respecting the declared lower bounds
puts both units on the first arc. -/
def instLB : Instance :=
  { n := 2
  , arcs := [⟨1, 2, 2, 5, .ofInt 1⟩, ⟨1, 2, 0, 5, .ofInt 0⟩]
  , supply := [2, -2] }

/-- A globally unbalanced instance: one node with supply +1 and no arcs. -/
def unbalanced : Instance := { n := 1, arcs := [], supply := [1] }

/-- A globally unbalanced instance: two isolated nodes with supplies +1 and
+1 and no arcs. -/
def unbalanced2 : Instance := { n := 2, arcs := [], supply := [1, 1] }

/-- A globally unbalanced instance with an arc: supplies +3 and −1 and one
arc (file ids 1 → 2) with bounds [0, 5] and cost 1. -/
def unbalanced3 : Instance :=
  { n := 2, arcs := [⟨1, 2, 0, 5, .ofInt 1⟩], supply := [3, -1] }

/-- Three nodes with supplies +1, 0, −1; a direct arc 1 → 3 of cost 1 and a
two-hop path 1 → 2 → 3 whose arcs cost 0.6 each, all bounds [0, 1].  With
the costs as given the direct arc is the unique optimum (1 < 1.2); after
truncation to `int` both path arcs cost 0 and the solver routes via the
path. -/
def twoPathInst : Instance :=
  { n := 3
  , arcs := [⟨1, 3, 0, 1, .ofInt 1⟩, ⟨1, 2, 0, 1, ⟨6, 10⟩⟩, ⟨2, 3, 0, 1, ⟨6, 10⟩⟩]
  , supply := [1, 0, -1] }

/-- Like `wLower2` but with lower bound 0 on the arc. -/
def wLower1 : Instance :=
  { n := 2, arcs := [⟨1, 2, 0, 5, .ofInt 1⟩], supply := [2, -2] }

/-- Like `wLower1` but with lower bound 3 on the arc. -/
def wLower2 : Instance :=
  { n := 2, arcs := [⟨1, 2, 3, 5, .ofInt 1⟩], supply := [2, -2] }

/-- A `bestFlow` result of `none` only arises from the empty list. -/
theorem bestFlow_eq_none {costs : List Int} {l : List (List Int)}
    (h : bestFlow costs l = none) : l = [] := by
  cases l with
  | nil => rfl
  | cons f rest =>
    exfalso
    simp only [bestFlow] at h
    cases hb : bestFlow costs rest with
    | none => simp only [hb] at h; exact Option.noConfusion h
    | some g =>
      simp only [hb] at h
      by_cases hc : totalCostInt costs g < totalCostInt costs f
      · rw [if_pos hc] at h; exact Option.noConfusion h
      · rw [if_neg hc] at h; exact Option.noConfusion h

/-- A flow returned by `bestFlow` is a member of the candidate list. -/
theorem bestFlow_mem {costs : List Int} :
    ∀ {l : List (List Int)} {f : List Int}, bestFlow costs l = some f → f ∈ l := by
  intro l
  induction l with
  | nil => intro f h; exact absurd h (by simp [bestFlow])
  | cons a rest ih =>
    intro f h
    simp only [bestFlow] at h
    cases hb : bestFlow costs rest with
    | none =>
      simp only [hb] at h
      cases h
      exact List.mem_cons_self a rest
    | some g =>
      simp only [hb] at h
      by_cases hc : totalCostInt costs g < totalCostInt costs a
      · rw [if_pos hc] at h
        cases h
        exact List.mem_cons_of_mem a (ih hb)
      · rw [if_neg hc] at h
        cases h
        exact List.mem_cons_self a rest

/-- A flow returned by `bestFlow` has minimal cost among the candidates. -/
theorem bestFlow_min {costs : List Int} :
    ∀ {l : List (List Int)} {f : List Int}, bestFlow costs l = some f →
      ∀ g ∈ l, totalCostInt costs f ≤ totalCostInt costs g := by
  intro l
  induction l with
  | nil => intro f h; simp [bestFlow] at h
  | cons a rest ih =>
    intro f h g hg
    simp only [bestFlow] at h
    cases hb : bestFlow costs rest with
    | none =>
      have hrest : rest = [] := bestFlow_eq_none hb
      simp only [hb] at h
      cases h
      subst hrest
      rcases List.mem_singleton.mp hg with rfl
      exact le_refl _
    | some b =>
      simp only [hb] at h
      rcases List.mem_cons.mp hg with rfl | hgr
      · by_cases hc : totalCostInt costs b < totalCostInt costs g
        · rw [if_pos hc] at h; cases h; exact le_of_lt hc
        · rw [if_neg hc] at h; cases h; exact le_refl _
      · by_cases hc : totalCostInt costs b < totalCostInt costs a
        · rw [if_pos hc] at h; cases h; exact ih hb g hgr
        · rw [if_neg hc] at h; cases h
          exact le_trans (not_lt.mp hc) (ih hb g hgr)

/-- Members of `feasibleFlows` satisfy exact conservation at every node. -/
theorem mem_feasible_conserves {n : Nat} {ends : List (Nat × Nat)}
    {lower upper supply : List Int} {f : List Int}
    (h : f ∈ feasibleFlows n ends lower upper supply) :
    ∀ v < n, netFlow ends f v = supply.getD v 0 := by
  intro v hv
  have hc : conservesB n ends supply f = true := (List.mem_filter.mp h).2
  have := List.all_eq_true.mp hc v (List.mem_range.mpr hv)
  exact eq_of_beq this

/-- A flow returned by the solver invocation of `main` is feasible for the
data `main` passed (zero lower bounds). -/
theorem glueSolve_mem {inst : Instance} {f : List Int}
    (h : glueSolve inst = some f) :
    f ∈ feasibleFlows inst.n (glueEnds inst) (glueLower inst) (glueUpper inst)
        (glueSupply inst) :=
  bestFlow_mem h

/-- A flow returned by the solver invocation of `main` minimizes the
truncated-integer total cost among the feasible flows. -/
theorem glueSolve_min {inst : Instance} {f : List Int}
    (h : glueSolve inst = some f) :
    ∀ g ∈ feasibleFlows inst.n (glueEnds inst) (glueLower inst) (glueUpper inst)
        (glueSupply inst),
      totalCostInt (glueCosts inst) f ≤ totalCostInt (glueCosts inst) g :=
  bestFlow_min h

/-- On a successful solve, the cost printed on line 30 is the integer total
cost of the returned flow. -/
theorem runMain_reportedCost {inst : Instance} {f : List Int} (c : Nat)
    (h : glueSolve inst = some f) :
    (runMain c inst).reportedCost = totalCostInt (glueCosts inst) f := by
  simp only [runMain, h, Option.getD_some]

/-- On a successful solve, the output lines are the writer applied to the
returned flow. -/
theorem runMain_outputLines {inst : Instance} {f : List Int} (c : Nat)
    (h : glueSolve inst = some f) :
    (runMain c inst).outputLines = writeFlow (glueEnds inst) f := by
  simp only [runMain, h, Option.getD_some]

/-- The writer on the arcs produced by the reader: one line per nonzero-flow
arc, in insertion order, with both file endpoint ids shifted down by one. -/
theorem writeFlow_readArc (arcs : List ArcRec) : ∀ f : List Int,
    writeFlow (arcEnds (arcs.map readArc)) f =
      (arcs.zip f).filterMap
        (fun p => if p.2 ≠ 0 then some (p.1.src - 1, p.1.tgt - 1, p.2) else none) := by
  induction arcs with
  | nil => intro f; rfl
  | cons a rest ih =>
    intro f
    cases f with
    | nil => rfl
    | cons v fs =>
      simp only [writeFlow, arcEnds, List.map_cons, List.zip_cons_cons,
        List.filterMap_cons, readArc] at ih ⊢
      rw [ih fs]

/-- C1: the per-arc lower bounds are not honored.  On `instLB` the flow
[2, 0] is feasible for the declared bounds (so the claim is not vacuous
there), yet the program returns flow 0 on the arc whose declared lower bound
is 2, because line 26 never passes the `lower` map to the solver. -/
theorem c1_lower_bound_violated :
    instLB.arcs.map (fun a => a.lower) = [2, 0] ∧
    [2, 0] ∈ feasibleFlows instLB.n (glueEnds instLB)
        (instLB.arcs.map (fun a => a.lower)) (glueUpper instLB) (glueSupply instLB) ∧
    glueSolve instLB = some [0, 2] ∧
    ¬ (2 : Int) ≤ 0 := by decide

/-- C2: on the instance `unbalanced`, whose supplies sum to 1 ≠ 0, the
engine finds no feasible flow, yet the program reports a total cost, creates
the output file and exits with status 0 — no InfeasibleError is ever
surfaced, because line 29 discards the result of `run()` and `main` always
returns 0. -/
theorem c2_infeasibility_ignored :
    unbalanced.supply.sum ≠ 0 ∧
    glueSolve unbalanced = none ∧
    (runMain 3 unbalanced).exitCode = 0 ∧
    (runMain 3 unbalanced).outputFileCreated = true ∧
    (runMain 3 unbalanced).reportedCost = 0 := by decide

/-- C3: on the infeasible instance `unbalanced3` the run fails (no feasible
flow exists), yet line 31 still executes and creates the output file, and
the process exits 0 — the run is not all-or-nothing. -/
theorem c3_output_written_on_failure :
    glueSolve unbalanced3 = none ∧
    (runMain 3 unbalanced3).outputFileCreated = true ∧
    (runMain 3 unbalanced3).exitCode = 0 := by decide

/-- C4, counterexample to the claim as stated: on the infeasible instance
`unbalanced2` the program still produces a flow output (the empty line list,
that is, the all-zero flow on the empty arc set — the writer emits nothing
whatever the solver state holds, since there are no arcs), and that flow
violates conservation at node 0, whose supply is 1. -/
theorem c4_nonconserving_flow_emitted :
    glueSolve unbalanced2 = none ∧
    (runMain 3 unbalanced2).outputFileCreated = true ∧
    (runMain 3 unbalanced2).outputLines = [] ∧
    netFlow (glueEnds unbalanced2) (zeroFlow unbalanced2) 0 ≠
      (glueSupply unbalanced2).getD 0 0 := by decide

/-- C4 (amended): whenever the engine run succeeds, the returned flow
satisfies exact conservation at every node: the sum of flow on outgoing
arcs minus the sum on incoming arcs equals the declared supply. -/
theorem c4_conservation (inst : Instance) (f : List Int)
    (h : glueSolve inst = some f) :
    ∀ v < inst.n, netFlow (glueEnds inst) f v = (glueSupply inst).getD v 0 :=
  mem_feasible_conserves (glueSolve_mem h)

/-- C4 witness: conservation at both nodes of scenario 1. -/
theorem c4_conservation_witness :
    netFlow (glueEnds scenario1) [5] 0 = (glueSupply scenario1).getD 0 0 ∧
    netFlow (glueEnds scenario1) [5] 1 = (glueSupply scenario1).getD 1 0 :=
  ⟨c4_conservation scenario1 [5] (by decide) 0 (by decide),
   c4_conservation scenario1 [5] (by decide) 1 (by decide)⟩

set_option maxRecDepth 40000 in
/-- C5: on the triangle instance the engine routes all 4 units over the
two-hop path (flow 0 on the direct arc, 4 on each path arc) and the
reported total cost is 8, not 20. -/
theorem c5_two_hop_path :
    glueSolve triangle = some [0, 4, 4] ∧
    (runMain 3 triangle).reportedCost = 8 ∧
    ((8 : Int) ≠ 20) := by decide

/-- C6, counterexample to the claim as stated: on scenario 1 the single
output line is `0 1 5` — the 0-based store ids — while consistency with the
1-based reader contract would require `1 2 5`. -/
theorem c6_ids_not_one_based :
    (runMain 3 scenario1).outputLines = [(0, 1, 5)] ∧
    (runMain 3 scenario1).outputLines ≠ [(1, 2, 5)] := by decide

/-- C6 (amended): on every successful run the output is exactly one line
per arc with strictly nonzero flow, in arc insertion order, formatted as
`<source-id> <target-id> <flow-value>` — but the emitted ids are the
0-based Graph Store ids, each file id minus one, not the 1-based file
ids of the reader contract. -/
theorem c6_output_format (inst : Instance) (c : Nat) (f : List Int)
    (h : glueSolve inst = some f) :
    (runMain c inst).outputLines =
      (inst.arcs.zip f).filterMap
        (fun p => if p.2 ≠ 0 then some (p.1.src - 1, p.1.tgt - 1, p.2) else none) := by
  rw [runMain_outputLines c h]
  exact writeFlow_readArc inst.arcs f

/-- C6 witness: the amended format on scenario 1. -/
theorem c6_output_format_witness :
    (runMain 3 scenario1).outputLines =
      (scenario1.arcs.zip [5]).filterMap
        (fun p => if p.2 ≠ 0 then some (p.1.src - 1, p.1.tgt - 1, p.2) else none) :=
  c6_output_format scenario1 3 [5] (by decide)

/-- C7, counterexample to the claim as stated: on `twoPathInst` the engine
routes via the two-hop path whose arcs cost 0.6 each, reporting total cost
0, although the exact cost of that flow is 6/5 and the feasible direct flow
costs exactly 1 < 6/5.  The program neither minimizes `Σ cost(a)·flow(a)`
with the costs as given nor reports that sum exactly: the `float` costs are
truncated to `int` (0.6 becomes 0) when copied into the solver. -/
theorem c7_costs_not_real :
    glueSolve twoPathInst = some [0, 1, 1] ∧
    (runMain 3 twoPathInst).reportedCost = 0 ∧
    ratTotalCost twoPathInst.arcs [0, 1, 1] = 6/5 ∧
    [1, 0, 0] ∈ feasibleFlows twoPathInst.n (glueEnds twoPathInst)
        (glueLower twoPathInst) (glueUpper twoPathInst) (glueSupply twoPathInst) ∧
    ratTotalCost twoPathInst.arcs [1, 0, 0] = 1 ∧
    ((1 : Rat) < 6/5) := by
  refine ⟨by decide, by decide, ?_, by decide, ?_, by norm_num⟩
  · norm_num [ratTotalCost, twoPathInst, CostLit.toRat, CostLit.ofInt]
  · norm_num [ratTotalCost, twoPathInst, CostLit.toRat, CostLit.ofInt]

/-- C7 (amended): costs are truncated toward zero to integers on entry to
the engine; on every successful run the engine minimizes
`Σ trunc(cost(a))·flow(a)` over the feasible flows and the reported total
cost equals that integer sum for the returned flow. -/
theorem c7_truncated_costs (inst : Instance) (c : Nat) (f : List Int)
    (h : glueSolve inst = some f) :
    glueCosts inst = (readDimacsMin inst).arcs.map (fun a => a.cost.toIntTrunc) ∧
    (runMain c inst).reportedCost = totalCostInt (glueCosts inst) f ∧
    ∀ g ∈ feasibleFlows inst.n (glueEnds inst) (glueLower inst) (glueUpper inst)
        (glueSupply inst),
      totalCostInt (glueCosts inst) f ≤ totalCostInt (glueCosts inst) g :=
  ⟨rfl, runMain_reportedCost c h, glueSolve_min h⟩

/-- C7 witness: the amended statement on scenario 1. -/
theorem c7_truncated_costs_witness :
    glueCosts scenario1 = (readDimacsMin scenario1).arcs.map (fun a => a.cost.toIntTrunc) ∧
    (runMain 3 scenario1).reportedCost = totalCostInt (glueCosts scenario1) [5] ∧
    ∀ g ∈ feasibleFlows scenario1.n (glueEnds scenario1) (glueLower scenario1)
        (glueUpper scenario1) (glueSupply scenario1),
      totalCostInt (glueCosts scenario1) [5] ≤ totalCostInt (glueCosts scenario1) g :=
  c7_truncated_costs scenario1 3 [5] (by decide)

/-- C8: with `argc = 2` (one positional argument) the usage message is
printed but the program still proceeds to read the input, and it exits with
status 0; moreover the exit status is 0 on every run — successful,
short-of-arguments or infeasible alike — so the error kinds are not
distinguishable by exit code. -/
theorem c8_usage_and_exit_codes :
    (runMain 2 scenario1).usagePrinted = true ∧
    (runMain 2 scenario1).readsInput = true ∧
    (runMain 2 scenario1).exitCode = 0 ∧
    (runMain 3 scenario1).exitCode = 0 ∧
    (runMain 3 unbalanced).exitCode = 0 := by decide

/-- C9: the reported total cost is determined by the instance alone: it
equals the truncated-integer total cost of every optimal flow, whichever
optimal flow decomposition the engine happens to return. -/
theorem c9_cost_deterministic (inst : Instance) (c : Nat) (f g : List Int)
    (hf : glueSolve inst = some f) (hg : IsOptimalFor inst g) :
    (runMain c inst).reportedCost = totalCostInt (glueCosts inst) g := by
  rw [runMain_reportedCost c hf]
  exact le_antisymm (glueSolve_min hf g hg.1) (hg.2 f (glueSolve_mem hf))

/-- C9 witness: the reported cost on scenario 1 equals the cost of the
optimal flow [5]. -/
theorem c9_cost_deterministic_witness :
    (runMain 3 scenario1).reportedCost = totalCostInt (glueCosts scenario1) [5] :=
  c9_cost_deterministic scenario1 3 [5] [5] (by decide) (by decide)

/-- C10: the entire observable run — reported cost, output file content,
exit status — is independent of the per-arc lower-bound values: two
instances agreeing on node count, supplies and every arc field except
`lower` produce identical runs, because the `lower` map is read on line 21
but never supplied to the solver on line 26. -/
theorem c10_lower_independent (inst inst' : Instance) (c : Nat)
    (hn : inst.n = inst'.n) (hs : inst.supply = inst'.supply)
    (ha : inst.arcs.map stripLower = inst'.arcs.map stripLower) :
    runMain c inst = runMain c inst' := by
  have key : ∀ {β : Type} (g : Nat × Nat × Int × CostLit → β),
      inst.arcs.map (g ∘ stripLower) = inst'.arcs.map (g ∘ stripLower) := by
    intro β g
    rw [← List.map_map, ha, List.map_map]
  have hlen : inst.arcs.length = inst'.arcs.length := by
    have h1 := congrArg List.length ha
    simpa using h1
  have hends : glueEnds inst = glueEnds inst' := by
    have h1 := key (fun q => (q.1 - 1, q.2.1 - 1))
    simpa [glueEnds, arcEnds, readDimacsMin, readArc, stripLower, Function.comp,
      List.map_map] using h1
  have hupper : glueUpper inst = glueUpper inst' := by
    have h1 := key (fun q => q.2.2.1)
    simpa [glueUpper, readDimacsMin, readArc, stripLower, Function.comp,
      List.map_map] using h1
  have hcosts : glueCosts inst = glueCosts inst' := by
    have h1 := key (fun q => q.2.2.2.toIntTrunc)
    simpa [glueCosts, readDimacsMin, readArc, stripLower, Function.comp,
      List.map_map] using h1
  have hlow : glueLower inst = glueLower inst' := by
    simp [glueLower, readDimacsMin, hlen]
  have hzero : zeroFlow inst = zeroFlow inst' := by
    simp [zeroFlow, readDimacsMin, hlen]
  have hsolve : glueSolve inst = glueSolve inst' := by
    simp only [glueSolve, glueSupply, hn, hs, hends, hupper, hcosts, hlow]
  simp only [runMain, hsolve, hends, hcosts, hzero]

/-- C10 witness: two concrete instances that differ only in the lower bound
of their single arc (0 versus 3) produce identical runs. -/
theorem c10_lower_independent_witness : runMain 3 wLower1 = runMain 3 wLower2 :=
  c10_lower_independent wLower1 wLower2 3 rfl rfl (by decide)

end SolveMcf
